import Mathlib

/-!
Shallow embedding of the Communication doctype logic from
src/frappe/core/doctype/communication/communication.py.

The embedding keeps the record fields the verified code paths read:
the record id, the primary reference pair, and the ordered child table
of dynamic links.  The external record store (frappe.get_doc) is a
parameter of type Store; a lookup that raises in Python is modelled as
Except.error, and the CircularLinkingError raised by frappe.throw is
modelled as the result Except.ok true of the validation functions.
Persistence calls (self.save) are modelled by returning the list of
save invocations, each recorded with its ignore_permissions flag.
-/

set_option autoImplicit false

/-- One row of the dynamic_links child table: a (link_doctype, link_name)
pair attaching a Communication to another record. -/
structure Link where
  link_doctype : String
  link_name : String
deriving DecidableEq, Repr

/-- A Communication record, restricted to the fields the verified code
paths read: id, primary reference pair and the ordered dynamic links. -/
structure Communication where
  name : String
  reference_doctype : String := ""
  reference_name : String := ""
  dynamic_links : List Link := []
deriving DecidableEq, Repr

/-- The external record store: lookup by (doctype, name), returning the
record or none when no such record exists. -/
abbrev Store := String → String → Option Communication

/-- The (link_doctype, link_name) pair of a row, the tuple t built by
deduplicate_dynamic_links for each row l. -/
def linkPair (l : Link) : String × String := (l.link_doctype, l.link_name)

/-- Embeds get_timeline_parent_doc: when both strings are nonempty it
fetches the record from the store (a failed fetch raises in Python,
modelled as Except.error); when either is empty the Python function
raises a NameError because parent_doc is never bound, also error. -/
def get_timeline_parent_doc (store : Store) (link_doctype link_name : String) :
    Except Unit Communication :=
  if link_doctype ≠ "" ∧ link_name ≠ "" then
    match store link_doctype link_name with
    | some d => .ok d
    | none => .error ()
  else .error ()

/-- Modelled from the spec: get_parent_doc (frappe.core.utils, not under
src) resolves the record named by reference_doctype and reference_name
through the external record store. -/
def get_parent_doc (store : Store) (d : Communication) : Option Communication :=
  store d.reference_doctype d.reference_name

/-- Embeds Communication.add_link: appends a fresh row with the given
pair to dynamic_links, then saves once with ignore_permissions=True when
autosave is set.  The second component is the list of save invocations,
each entry the ignore_permissions flag that save received. -/
def Communication.add_link (self : Communication) (link_doctype link_name : String)
    (autosave : Bool) : Communication × List Bool :=
  ({ self with dynamic_links := self.dynamic_links ++ [⟨link_doctype, link_name⟩] },
   if autosave then [true] else [])

/-- Embeds the loop of Communication.remove_link, which mutates the list
while iterating it with self.dynamic_links.remove(l).  CPython keeps an
internal index into the shrinking list, so after a removal the element
that stood right behind the removed row is never examined: a matching
head is dropped and the following row is kept unexamined. -/
def removeScan (link_doctype link_name : String) : List Link → List Link
  | [] => []
  | l :: ls =>
    if l.link_doctype = link_doctype ∧ l.link_name = link_name then
      match ls with
      | [] => []
      | y :: ys => y :: removeScan link_doctype link_name ys
    else l :: removeScan link_doctype link_name ls

/-- Embeds Communication.remove_link: runs the removal loop over
dynamic_links, then saves once with the given ignore_permissions flag
when autosave is set. -/
def Communication.remove_link (self : Communication) (link_doctype link_name : String)
    (autosave : Bool) (ignore_permissions : Bool) : Communication × List Bool :=
  ({ self with dynamic_links := removeScan link_doctype link_name self.dynamic_links },
   if autosave then [ignore_permissions] else [])

/-- Embeds the scanning loop of deduplicate_dynamic_links: walks the
rows once, carrying the list links of already seen pairs and the
duplicate flag; a row whose pair is already present sets the flag,
otherwise the pair is appended to links. -/
def dedupScan (acc : List (String × String)) (dup : Bool) :
    List Link → List (String × String) × Bool
  | [] => (acc, dup)
  | l :: ls =>
    if linkPair l ∈ acc then dedupScan acc true ls
    else dedupScan (acc ++ [linkPair l]) dup ls

/-- Embeds Communication.deduplicate_dynamic_links: on a nonempty child
table it scans for duplicates; when one was found it empties the table
and re-adds one row per recorded pair through add_link (autosave off),
otherwise the record is left untouched. -/
def Communication.deduplicate_dynamic_links (self : Communication) : Communication :=
  if self.dynamic_links.isEmpty then self
  else
    let s := dedupScan [] false self.dynamic_links
    if s.2 then
      s.1.foldl (fun r t => (r.add_link t.1 t.2 false).1) { self with dynamic_links := [] }
    else self

/-- Depth-3 inner loop of validate_circular_links: walks the dynamic
links of the level-2 record; for each Communication link it resolves the
level-3 record and reports detection when that record has the id of the
original Communication.  The break in the source exits this loop on the
first hit. -/
def scanLevel3 (store : Store) (selfName : String) : List Link → Except Unit Bool
  | [] => .ok false
  | l :: ls =>
    if l.link_doctype = "Communication" then
      match get_timeline_parent_doc store l.link_doctype l.link_name with
      | .error e => .error e
      | .ok level3 =>
        if level3.name = selfName then .ok true
        else scanLevel3 store selfName ls
    else scanLevel3 store selfName ls

/-- Middle loop of validate_circular_links: walks the dynamic links of
the level-1 record, resolving each Communication link to a level-2
record and scanning its links at depth 3; as soon as the circular flag
is set the source calls frappe.throw, modelled by returning ok true. -/
def scanLevel1 (store : Store) (selfName : String) : List Link → Except Unit Bool
  | [] => .ok false
  | l :: ls =>
    if l.link_doctype = "Communication" then
      match get_timeline_parent_doc store l.link_doctype l.link_name with
      | .error e => .error e
      | .ok level2 =>
        match scanLevel3 store selfName level2.dynamic_links with
        | .error e => .error e
        | .ok true => .ok true
        | .ok false => scanLevel1 store selfName ls
    else scanLevel1 store selfName ls

/-- Outer loop of validate_circular_links over the dynamic links of the
record being validated: each Communication link is resolved to a level-1
record whose links are then scanned. -/
def vclOuter (store : Store) (selfName : String) : List Link → Except Unit Bool
  | [] => .ok false
  | l :: ls =>
    if l.link_doctype = "Communication" then
      match get_timeline_parent_doc store l.link_doctype l.link_name with
      | .error e => .error e
      | .ok level1 =>
        match scanLevel1 store selfName level1.dynamic_links with
        | .error e => .error e
        | .ok true => .ok true
        | .ok false => vclOuter store selfName ls
    else vclOuter store selfName ls

/-- Embeds Communication.validate_circular_links: ok true means
frappe.throw raised CircularLinkingError, ok false means validation
passed, error means a record lookup raised. -/
def Communication.validate_circular_links (store : Store) (self : Communication) :
    Except Unit Bool :=
  vclOuter store self.name self.dynamic_links

/-- Embeds the while loop of validate_reference (the circular check on
the primary reference): fuel counts loop iterations, none meaning the
given fuel was exhausted before the loop exited.  ok true means the
circular_linking flag was set (frappe.throw follows), ok false means the
chain left Communication records, error means a parent lookup failed
(an unhandled exception in Python). -/
def valRefWalk (store : Store) (selfName : String) : Nat → Communication →
    Option (Except Unit Bool)
  | 0, _ => none
  | fuel + 1, doc =>
    if doc.reference_doctype = "Communication" then
      match get_parent_doc store doc with
      | none => some (.error ())
      | some parent =>
        if parent.name = selfName then some (.ok true)
        else valRefWalk store selfName fuel parent
    else some (.ok false)

/-- Embeds lines 73 to 82 of validate_reference, the circular check
performed when the primary reference pair is set and points at a
Communication: the walk starts at the parent of the record itself. -/
def Communication.validate_reference_circular (store : Store) (self : Communication)
    (fuel : Nat) : Option (Except Unit Bool) :=
  if self.reference_doctype = "Communication" ∧ self.reference_name ≠ "" then
    match get_parent_doc store self with
    | none => some (.error ())
    | some doc => valRefWalk store self.name fuel doc
  else some (.ok false)

/-- The chain of parent records: iterate get_parent_doc k times from a
record, none when some lookup along the way fails. -/
def parentChain (store : Store) : Nat → Communication → Option Communication
  | 0, d => some d
  | k + 1, d =>
    match get_parent_doc store d with
    | some p => parentChain store k p
    | none => none

/-- One-step exit condition of the validate_reference walk at a record:
the walk leaves the loop there because the reference is not a
Communication, or the parent lookup fails, or the parent has the id of
the original record. -/
def walkExitsAt (store : Store) (selfName : String) (d : Communication) : Bool :=
  if d.reference_doctype = "Communication" then
    match get_parent_doc store d with
    | none => true
    | some p => p.name = selfName
  else true

/-- Nontermination of the validate_reference circular check: every
amount of fuel is exhausted. -/
def valRefRunsForever (store : Store) (self : Communication) : Prop :=
  ∀ fuel, Communication.validate_reference_circular store self fuel = none

/-- Modelled from the spec: the deduplication output described in the
specification, keeping the first occurrence of each pair and dropping
every later duplicate, carrying the set of seen pairs. -/
def keepFirstOccurrences (seen : List (String × String)) : List Link → List Link
  | [] => []
  | l :: ls =>
    if linkPair l ∈ seen then keepFirstOccurrences seen ls
    else l :: keepFirstOccurrences (seen ++ [linkPair l]) ls

/-- Modelled from the spec: first-occurrence deduplication of a row
sequence, the stated output of the deduplication pass. -/
def firstOccurrences (ls : List Link) : List Link :=
  keepFirstOccurrences [] ls

/-- Whether the scanning loop of deduplicate_dynamic_links would set the
duplicate flag, starting from a given list of already seen pairs. -/
def seenDup (acc : List (String × String)) : List Link → Bool
  | [] => false
  | l :: ls => if linkPair l ∈ acc then true else seenDup (acc ++ [linkPair l]) ls

/-! Concrete records and stores used by witnesses and counterexamples. -/

/-- Record with two identical dynamic links, exercising the removal loop
on adjacent duplicates. -/
def c1rec : Communication :=
  { name := "COMM-1", dynamic_links := [⟨"Communication", "A"⟩, ⟨"Communication", "A"⟩] }

/-- Record A for the validate_reference nontermination counterexample:
its reference points at B while B and C reference each other. -/
def c2A : Communication :=
  { name := "A", reference_doctype := "Communication", reference_name := "B" }

/-- Record B of the cycle B to C to B that never reaches back to A. -/
def c2B : Communication :=
  { name := "B", reference_doctype := "Communication", reference_name := "C" }

/-- Record C of the cycle B to C to B. -/
def c2C : Communication :=
  { name := "C", reference_doctype := "Communication", reference_name := "B" }

/-- Store holding A, B and C, with the reference chain A to B, B to C,
C to B: the walk from A alternates between B and C forever. -/
def c2store : Store := fun dt n =>
  if dt = "Communication" then
    if n = "A" then some c2A
    else if n = "B" then some c2B
    else if n = "C" then some c2C
    else none
  else none

/-- Record for the witness of the amended termination statement: its
reference chain ends at a record filed against a non-Communication. -/
def c2wA : Communication :=
  { name := "WA", reference_doctype := "Communication", reference_name := "WB" }

/-- End of the witness chain: filed against a ToDo record. -/
def c2wB : Communication :=
  { name := "WB", reference_doctype := "ToDo", reference_name := "t1" }

/-- Store for the termination witness chain WA to WB. -/
def c2wstore : Store := fun dt n =>
  if dt = "Communication" then
    if n = "WA" then some c2wA
    else if n = "WB" then some c2wB
    else none
  else none

/-- Chain member A3 of the depth-3 cycle A3 to B3 to C3 to A3. -/
def w3A : Communication :=
  { name := "A3", dynamic_links := [⟨"Communication", "B3"⟩] }

/-- Chain member B3 of the depth-3 cycle. -/
def w3B : Communication :=
  { name := "B3", dynamic_links := [⟨"Communication", "C3"⟩] }

/-- Chain member C3 of the depth-3 cycle, linking back to A3. -/
def w3C : Communication :=
  { name := "C3", dynamic_links := [⟨"Communication", "A3"⟩] }

/-- Store holding the depth-3 cycle A3 to B3 to C3 to A3. -/
def w3store : Store := fun dt n =>
  if dt = "Communication" then
    if n = "A3" then some w3A
    else if n = "B3" then some w3B
    else if n = "C3" then some w3C
    else none
  else none

/-- Chain member A4 of the depth-4 cycle A4 to B4 to C4 to D4 to A4. -/
def w4A : Communication :=
  { name := "A4", dynamic_links := [⟨"Communication", "B4"⟩] }

/-- Chain member B4 of the depth-4 cycle. -/
def w4B : Communication :=
  { name := "B4", dynamic_links := [⟨"Communication", "C4"⟩] }

/-- Chain member C4 of the depth-4 cycle. -/
def w4C : Communication :=
  { name := "C4", dynamic_links := [⟨"Communication", "D4"⟩] }

/-- Chain member D4 of the depth-4 cycle, linking back to A4. -/
def w4D : Communication :=
  { name := "D4", dynamic_links := [⟨"Communication", "A4"⟩] }

/-- Store holding the depth-4 cycle A4 to B4 to C4 to D4 to A4. -/
def w4store : Store := fun dt n =>
  if dt = "Communication" then
    if n = "A4" then some w4A
    else if n = "B4" then some w4B
    else if n = "C4" then some w4C
    else if n = "D4" then some w4D
    else none
  else none

/-- Member A2 of the mutual pair A2 and B2 linking each other. -/
def w10A : Communication :=
  { name := "A2", dynamic_links := [⟨"Communication", "B2"⟩] }

/-- Member B2 of the mutual pair, linking back to A2. -/
def w10B : Communication :=
  { name := "B2", dynamic_links := [⟨"Communication", "A2"⟩] }

/-- Store holding the mutual two-record cycle A2 and B2. -/
def w10store : Store := fun dt n =>
  if dt = "Communication" then
    if n = "A2" then some w10A
    else if n = "B2" then some w10B
    else none
  else none

/-- Record with two distinct dynamic links, used as the deduplication
no-op witness. -/
def w7rec : Communication :=
  { name := "COMM-7", dynamic_links := [⟨"ToDo", "t1"⟩, ⟨"User", "u1"⟩] }

/-! Helper lemmas about the deduplication pass. -/

theorem dedupScan_fst (ls : List Link) :
    ∀ (acc : List (String × String)) (dup : Bool),
      (dedupScan acc dup ls).1 = acc ++ (keepFirstOccurrences acc ls).map linkPair := by
  induction ls with
  | nil => intro acc dup; simp [dedupScan, keepFirstOccurrences]
  | cons l ls ih =>
    intro acc dup
    by_cases h : linkPair l ∈ acc
    · simp [dedupScan, keepFirstOccurrences, h, ih]
    · simp [dedupScan, keepFirstOccurrences, h, ih, List.append_assoc]

theorem dedupScan_snd (ls : List Link) :
    ∀ (acc : List (String × String)) (dup : Bool),
      (dedupScan acc dup ls).2 = (dup || seenDup acc ls) := by
  induction ls with
  | nil => intro acc dup; simp [dedupScan, seenDup]
  | cons l ls ih =>
    intro acc dup
    by_cases h : linkPair l ∈ acc
    · simp [dedupScan, seenDup, h, ih]
    · simp [dedupScan, seenDup, h, ih]

theorem seenDup_false_of_nodup (ls : List Link) :
    ∀ acc : List (String × String),
      (ls.map linkPair).Nodup → (∀ p ∈ ls.map linkPair, p ∉ acc) →
      seenDup acc ls = false := by
  induction ls with
  | nil => intro acc _ _; simp [seenDup]
  | cons l ls ih =>
    intro acc hnd hdisj
    rw [List.map_cons, List.nodup_cons] at hnd
    have hla : linkPair l ∉ acc := hdisj (linkPair l) (by simp)
    rw [seenDup, if_neg hla]
    refine ih (acc ++ [linkPair l]) hnd.2 ?_
    intro p hp
    rw [List.mem_append, List.mem_singleton]
    rintro (hpa | hpl)
    · exact hdisj p (by simp [hp]) hpa
    · exact hnd.1 (hpl ▸ hp)

theorem keepFirstOccurrences_of_no_seenDup (ls : List Link) :
    ∀ acc : List (String × String),
      seenDup acc ls = false → keepFirstOccurrences acc ls = ls := by
  induction ls with
  | nil => intro acc _; simp [keepFirstOccurrences]
  | cons l ls ih =>
    intro acc h
    by_cases hla : linkPair l ∈ acc
    · rw [seenDup, if_pos hla] at h; exact absurd h (by simp)
    · rw [seenDup, if_neg hla] at h
      rw [keepFirstOccurrences, if_neg hla, ih (acc ++ [linkPair l]) h]

theorem keepFirstOccurrences_nodup_disjoint (ls : List Link) :
    ∀ acc : List (String × String),
      ((keepFirstOccurrences acc ls).map linkPair).Nodup ∧
      (∀ p ∈ (keepFirstOccurrences acc ls).map linkPair, p ∉ acc) := by
  induction ls with
  | nil => intro acc; simp [keepFirstOccurrences]
  | cons l ls ih =>
    intro acc
    by_cases hla : linkPair l ∈ acc
    · rw [keepFirstOccurrences, if_pos hla]; exact ih acc
    · rw [keepFirstOccurrences, if_neg hla]
      have ih' := ih (acc ++ [linkPair l])
      constructor
      · rw [List.map_cons, List.nodup_cons]
        refine ⟨fun hmem => ?_, ih'.1⟩
        have := ih'.2 (linkPair l) hmem
        simp at this
      · intro p hp
        rw [List.map_cons, List.mem_cons] at hp
        rcases hp with hpl | hpt
        · exact hpl ▸ hla
        · have := ih'.2 p hpt
          rw [List.mem_append, List.mem_singleton] at this
          exact fun hpa => this (Or.inl hpa)

theorem keepFirstOccurrences_mem (ls : List Link) :
    ∀ (acc : List (String × String)) (p : String × String),
      p ∈ (keepFirstOccurrences acc ls).map linkPair ↔
        p ∈ ls.map linkPair ∧ p ∉ acc := by
  induction ls with
  | nil => intro acc p; simp [keepFirstOccurrences]
  | cons l ls ih =>
    intro acc p
    by_cases hla : linkPair l ∈ acc
    · rw [keepFirstOccurrences, if_pos hla, ih]
      constructor
      · rintro ⟨hpt, hpa⟩; exact ⟨by simp [hpt], hpa⟩
      · rintro ⟨hpc, hpa⟩
        rw [List.map_cons, List.mem_cons] at hpc
        rcases hpc with hpl | hpt
        · exact absurd (hpl ▸ hla) hpa
        · exact ⟨hpt, hpa⟩
    · rw [keepFirstOccurrences, if_neg hla, List.map_cons, List.mem_cons, ih]
      constructor
      · rintro (hpl | ⟨hpt, hpa⟩)
        · exact ⟨by simp [hpl], hpl ▸ hla⟩
        · rw [List.mem_append, List.mem_singleton] at hpa
          exact ⟨by simp [hpt], fun hin => hpa (Or.inl hin)⟩
      · rintro ⟨hpc, hpa⟩
        rw [List.map_cons, List.mem_cons] at hpc
        rcases hpc with hpl | hpt
        · exact Or.inl hpl
        · by_cases hpe : p = linkPair l
          · exact Or.inl hpe
          · refine Or.inr ⟨hpt, ?_⟩
            rw [List.mem_append, List.mem_singleton]
            rintro (h1 | h2)
            · exact hpa h1
            · exact hpe h2

theorem foldl_add_link (ps : List (String × String)) :
    ∀ r : Communication,
      ps.foldl (fun r t => (r.add_link t.1 t.2 false).1) r =
        { r with dynamic_links := r.dynamic_links ++ ps.map (fun t => ⟨t.1, t.2⟩) } := by
  induction ps with
  | nil => intro r; simp
  | cons t ps ih =>
    intro r
    rw [List.foldl_cons, ih]
    simp [Communication.add_link]

theorem map_mk_linkPair (ls : List Link) :
    (ls.map linkPair).map (fun t => (⟨t.1, t.2⟩ : Link)) = ls := by
  rw [List.map_map]
  exact List.map_id'' (fun x => rfl) ls

theorem deduplicate_links_eq (r : Communication) :
    (r.deduplicate_dynamic_links).dynamic_links = firstOccurrences r.dynamic_links := by
  unfold Communication.deduplicate_dynamic_links
  by_cases hls : r.dynamic_links.isEmpty
  · rw [if_pos hls]
    rw [List.isEmpty_iff] at hls
    rw [hls]
    simp [firstOccurrences, keepFirstOccurrences]
  · rw [if_neg hls]
    by_cases hdup : (dedupScan [] false r.dynamic_links).2
    · rw [if_pos hdup, foldl_add_link]
      show [] ++ _ = _
      rw [List.nil_append, dedupScan_fst, List.nil_append, map_mk_linkPair]
      rfl
    · rw [if_neg hdup]
      rw [dedupScan_snd, Bool.false_or] at hdup
      rw [firstOccurrences,
        keepFirstOccurrences_of_no_seenDup _ [] (Bool.not_eq_true _ ▸ hdup)]

theorem deduplicate_noop_of_nodup (r : Communication)
    (h : (r.dynamic_links.map linkPair).Nodup) :
    r.deduplicate_dynamic_links = r := by
  unfold Communication.deduplicate_dynamic_links
  by_cases hls : r.dynamic_links.isEmpty
  · rw [if_pos hls]
  · rw [if_neg hls]
    have h2 : (dedupScan [] false r.dynamic_links).2 = false := by
      rw [dedupScan_snd, Bool.false_or]
      exact seenDup_false_of_nodup _ [] h (by simp)
    rw [if_neg (by rw [h2]; exact Bool.false_ne_true)]

/-! Helper lemmas about the validate_reference walk. -/

theorem valRefWalk_reaches_exit (store : Store) (selfName : String) :
    ∀ (k : Nat) (d : Communication),
      (∃ e, parentChain store k d = some e ∧ walkExitsAt store selfName e = true) →
      ∃ fuel r, valRefWalk store selfName fuel d = some r := by
  intro k
  induction k with
  | zero =>
    rintro d ⟨e, hc, he⟩
    rw [parentChain] at hc
    have hde : d = e := Option.some.inj hc
    subst hde
    by_cases hrd : d.reference_doctype = "Communication"
    · rw [walkExitsAt, if_pos hrd] at he
      cases hp : get_parent_doc store d with
      | none => exact ⟨1, .error (), by simp [valRefWalk, hrd, hp]⟩
      | some p =>
        rw [hp] at he
        have hpn : p.name = selfName := of_decide_eq_true he
        exact ⟨1, .ok true, by simp [valRefWalk, hrd, hp, hpn]⟩
    · exact ⟨1, .ok false, by simp [valRefWalk, hrd]⟩
  | succ k ih =>
    rintro d ⟨e, hc, he⟩
    rw [parentChain] at hc
    cases hp : get_parent_doc store d with
    | none => rw [hp] at hc; exact absurd hc (by simp)
    | some p =>
      rw [hp] at hc
      by_cases hrd : d.reference_doctype = "Communication"
      · by_cases hpn : p.name = selfName
        · exact ⟨1, .ok true, by simp [valRefWalk, hrd, hp, hpn]⟩
        · obtain ⟨fuel, r, hw⟩ := ih p ⟨e, hc, he⟩
          exact ⟨fuel + 1, r, by simp [valRefWalk, hrd, hp, hpn, hw]⟩
      · exact ⟨1, .ok false, by simp [valRefWalk, hrd]⟩

theorem c2walk_none (fuel : Nat) :
    valRefWalk c2store "A" fuel c2B = none ∧ valRefWalk c2store "A" fuel c2C = none := by
  induction fuel with
  | zero => exact ⟨rfl, rfl⟩
  | succ n ih => exact ⟨ih.2, ih.1⟩

/-! Claim theorems. -/

/-- C1: evaluation of remove_link at a record whose child table holds
the same pair twice, adjacent.  The loop removes the first row and the
removal shifts the second row under the iteration index, so one matching
row survives: the claim that all matching rows are removed fails. -/
theorem remove_link_keeps_adjacent_duplicate :
    ((c1rec.remove_link "Communication" "A" false true).1).dynamic_links =
      [⟨"Communication", "A"⟩] := by decide

/-- C2 counterexample: on the store where A references B and B and C
reference each other, the circular check on A never terminates, whatever
fuel the walk is given.  The claim that the walk always ends fails. -/
theorem validate_reference_circular_diverges :
    valRefRunsForever c2store c2A :=
  fun fuel => (c2walk_none fuel).1

/-- C2 amended: the circular check on the primary reference terminates
provided the chain of parents from the first parent reaches, after
finitely many resolutions, a record at which the walk exits: one whose
reference is not a Communication, or whose parent lookup fails, or whose
parent carries the id of the original record. -/
theorem validate_reference_circular_terminates
    (store : Store) (self : Communication)
    (h : ∀ d, get_parent_doc store self = some d →
      ∃ k e, parentChain store k d = some e ∧ walkExitsAt store self.name e = true) :
    ∃ fuel r, Communication.validate_reference_circular store self fuel = some r := by
  by_cases hg : self.reference_doctype = "Communication" ∧ self.reference_name ≠ ""
  · cases hp : get_parent_doc store self with
    | none =>
      exact ⟨0, .error (), by simp [Communication.validate_reference_circular, hg, hp]⟩
    | some d =>
      obtain ⟨k, e, hc, he⟩ := h d hp
      obtain ⟨fuel, r, hw⟩ := valRefWalk_reaches_exit store self.name k d ⟨e, hc, he⟩
      exact ⟨fuel, r, by simp [Communication.validate_reference_circular, hg, hp, hw]⟩
  · exact ⟨0, .ok false, by simp [Communication.validate_reference_circular, hg]⟩

/-- C2 witness: on the two-record chain WA to WB, where WB is filed
against a ToDo, the circular check terminates. -/
theorem validate_reference_circular_terminates_witness :
    ∃ fuel r, Communication.validate_reference_circular c2wstore c2wA fuel = some r :=
  validate_reference_circular_terminates c2wstore c2wA (by
    intro d hd
    have hd' : (some c2wB : Option Communication) = some d := hd
    have hdb : d = c2wB := (Option.some.inj hd').symm
    subst hdb
    exact ⟨0, c2wB, rfl, by decide⟩)

/-- C3: for every chain of Communication dynamic links A to B to C and
back to A, where the record resolved at the third hop carries the id of
A, validate_circular_links on A raises the CircularLinkingError. -/
theorem validate_circular_links_detects_three_hop_cycle
    (store : Store) (a b c : Communication)
    (hbn : b.name ≠ "") (hcn : c.name ≠ "") (han : a.name ≠ "")
    (hA : a.dynamic_links = [⟨"Communication", b.name⟩])
    (hB : b.dynamic_links = [⟨"Communication", c.name⟩])
    (hC : c.dynamic_links = [⟨"Communication", a.name⟩])
    (hsb : store "Communication" b.name = some b)
    (hsc : store "Communication" c.name = some c)
    (hsa : store "Communication" a.name = some a) :
    Communication.validate_circular_links store a = .ok true := by
  simp [Communication.validate_circular_links, vclOuter, scanLevel1, scanLevel3,
    get_timeline_parent_doc, hA, hB, hC, hsb, hsc, hsa, hbn, hcn, han]

/-- C3 witness: on the concrete cycle A3 to B3 to C3 to A3 the error is
raised. -/
theorem validate_circular_links_detects_three_hop_cycle_witness :
    Communication.validate_circular_links w3store w3A = .ok true :=
  validate_circular_links_detects_three_hop_cycle w3store w3A w3B w3C
    (by decide) (by decide) (by decide) (by decide) (by decide) (by decide)
    (by decide) (by decide) (by decide)

/-- C4: for every chain of Communication dynamic links A to B to C to D
whose only cycle closes at the fourth hop back to A, the depth-3 check
resolves D at the third hop, the comparison with the id of A fails, and
validate_circular_links raises no error. -/
theorem validate_circular_links_misses_four_hop_cycle
    (store : Store) (a b c d : Communication)
    (hbn : b.name ≠ "") (hcn : c.name ≠ "") (hdn : d.name ≠ "")
    (hA : a.dynamic_links = [⟨"Communication", b.name⟩])
    (hB : b.dynamic_links = [⟨"Communication", c.name⟩])
    (hC : c.dynamic_links = [⟨"Communication", d.name⟩])
    (hD : d.dynamic_links = [⟨"Communication", a.name⟩])
    (hsb : store "Communication" b.name = some b)
    (hsc : store "Communication" c.name = some c)
    (hsd : store "Communication" d.name = some d)
    (hda : d.name ≠ a.name) :
    Communication.validate_circular_links store a = .ok false := by
  simp [Communication.validate_circular_links, vclOuter, scanLevel1, scanLevel3,
    get_timeline_parent_doc, hA, hB, hC, hsb, hsc, hsd, hbn, hcn, hdn, hda]

/-- C4 witness: on the concrete chain A4 to B4 to C4 to D4 to A4 no
error is raised. -/
theorem validate_circular_links_misses_four_hop_cycle_witness :
    Communication.validate_circular_links w4store w4A = .ok false :=
  validate_circular_links_misses_four_hop_cycle w4store w4A w4B w4C w4D
    (by decide) (by decide) (by decide) (by decide) (by decide) (by decide)
    (by decide) (by decide) (by decide) (by decide) (by decide)

/-- C10: for every pair of distinct Communications that link each other
through Communication dynamic links and nothing else, the record
resolved at the third hop is the other member of the pair, so the
comparison with the id of the starting record fails and
validate_circular_links raises no error: the two-hop mutual cycle goes
undetected. -/
theorem validate_circular_links_misses_mutual_cycle
    (store : Store) (a b : Communication)
    (hbn : b.name ≠ "") (han : a.name ≠ "")
    (hA : a.dynamic_links = [⟨"Communication", b.name⟩])
    (hB : b.dynamic_links = [⟨"Communication", a.name⟩])
    (hsb : store "Communication" b.name = some b)
    (hsa : store "Communication" a.name = some a)
    (hba : b.name ≠ a.name) :
    Communication.validate_circular_links store a = .ok false := by
  simp [Communication.validate_circular_links, vclOuter, scanLevel1, scanLevel3,
    get_timeline_parent_doc, hA, hB, hsb, hsa, hbn, han, hba]

/-- C10 witness: on the concrete mutual pair A2 and B2 no error is
raised. -/
theorem validate_circular_links_misses_mutual_cycle_witness :
    Communication.validate_circular_links w10store w10A = .ok false :=
  validate_circular_links_misses_mutual_cycle w10store w10A w10B
    (by decide) (by decide) (by decide) (by decide) (by decide) (by decide)
    (by decide)

/-- C5: deduplication is idempotent, since one pass leaves the child
table without duplicate pairs and a second pass on a duplicate-free
table is the identity. -/
theorem deduplicate_dynamic_links_idempotent (r : Communication) :
    (r.deduplicate_dynamic_links).deduplicate_dynamic_links =
      r.deduplicate_dynamic_links :=
  deduplicate_noop_of_nodup _ (by
    rw [deduplicate_links_eq, firstOccurrences]
    exact (keepFirstOccurrences_nodup_disjoint r.dynamic_links []).1)

/-- C6: deduplication produces exactly the first-occurrence subsequence
of the child table, and the set of pairs present is unchanged. -/
theorem deduplicate_dynamic_links_keeps_first_occurrences (r : Communication) :
    (r.deduplicate_dynamic_links).dynamic_links = firstOccurrences r.dynamic_links ∧
    ∀ p, (p ∈ ((r.deduplicate_dynamic_links).dynamic_links.map linkPair) ↔
      p ∈ r.dynamic_links.map linkPair) := by
  refine ⟨deduplicate_links_eq r, fun p => ?_⟩
  rw [deduplicate_links_eq, firstOccurrences, keepFirstOccurrences_mem]
  simp

/-- C7: on a record whose child table has no duplicate pair the
deduplication pass returns the record unchanged: the table is not
replaced, so nothing is marked for persistence. -/
theorem deduplicate_dynamic_links_noop_when_nodup (r : Communication)
    (h : (r.dynamic_links.map linkPair).Nodup) :
    r.deduplicate_dynamic_links = r :=
  deduplicate_noop_of_nodup r h

/-- C7 witness: the record with two distinct pairs is left unchanged. -/
theorem deduplicate_dynamic_links_noop_when_nodup_witness :
    (w7rec.dynamic_links.map linkPair).Nodup ∧
      w7rec.deduplicate_dynamic_links = w7rec :=
  ⟨by decide, deduplicate_dynamic_links_noop_when_nodup w7rec (by decide)⟩

/-- C8: add_link appends one fresh row with the given pair at the end of
the child table and changes nothing else, with no regard to rows already
carrying the same pair. -/
theorem add_link_appends (r : Communication) (link_doctype link_name : String)
    (autosave : Bool) :
    (r.add_link link_doctype link_name autosave).1 =
      { r with dynamic_links := r.dynamic_links ++ [⟨link_doctype, link_name⟩] } :=
  rfl

/-- C9: add_link with autosave performs exactly one save, with the
permission bypass flag set, and performs none without autosave. -/
theorem add_link_save_calls (r : Communication) (link_doctype link_name : String) :
    (r.add_link link_doctype link_name true).2 = [true] ∧
    (r.add_link link_doctype link_name false).2 = [] :=
  ⟨rfl, rfl⟩
